import Mathlib

/-!
Shallow embedding of the CST816S capacitive-touch-controller driver
(crates `driver` and `cst816s-driver`): the I2C register interface, the
register decoders generated from the `create_device!` descriptor table in
`device.rs`, the touch-sampling protocol `event`, the chip-id read, the
`PulseWidth` validated value, and the reset pulse sequences.

The bus is modelled as a memory (byte per register address) together with a
per-start-address transport-failure flag; every bus primitive call is logged
so that claims about the number and shape of bus transactions can be stated.
Rust panics (`unwrap` on an error) are modelled as an explicit `panic`
outcome, distinct from an `Ok(None)` result.
-/

/-- Decidable equality for `Except`, needed to evaluate driver outcomes on
concrete inputs. -/
instance {ε α : Type} [DecidableEq ε] [DecidableEq α] :
    DecidableEq (Except ε α) := fun x y =>
  match x, y with
  | .ok a, .ok b =>
    if h : a = b then .isTrue (by rw [h]) else .isFalse (by simp [h])
  | .error a, .error b =>
    if h : a = b then .isTrue (by rw [h]) else .isFalse (by simp [h])
  | .ok _, .error _ => .isFalse (by simp)
  | .error _, .ok _ => .isFalse (by simp)

namespace CST816S

/-- One low-level I2C operation inside a transaction. -/
inductive I2COp where
  | write (data : List Nat)
  | read (len : Nat)
deriving DecidableEq, Repr

/-- One embedded-hal bus primitive call, as issued by the driver:
a plain `write`, a combined `write_read`, or a `transaction` grouping
several operations into one bus transaction. -/
inductive BusPrim where
  | write (data : List Nat)
  | writeRead (out : List Nat) (inLen : Nat)
  | transaction (ops : List I2COp)
deriving DecidableEq, Repr

/-- The physical operations carried by one bus primitive call. -/
def primOps : BusPrim → List I2COp
  | .write d => [.write d]
  | .writeRead out l => [.write out, .read l]
  | .transaction ops => ops

/-- Flatten a log of bus primitive calls into the physical operations
they put on the wire. -/
def opsOfLog (log : List BusPrim) : List I2COp :=
  log.foldr (fun p acc => primOps p ++ acc) []

/-- Does this bus primitive read from register address `a`
(i.e. is it a `write_read` whose written address byte is `a`)? -/
def readsAddress (p : BusPrim) (a : Nat) : Bool :=
  match p with
  | .writeRead out _ => out.contains a
  | _ => false

/-- The state of the I2C peripheral as seen by the driver: a byte of memory
per register address, and a flag telling whether a transfer starting at a
given address fails with a transport (bus) error. -/
structure I2CBus where
  mem : Nat → Nat
  fail : Nat → Bool

/-- `embedded_hal::i2c::I2c::write_read`: one combined transaction writing
the address byte and reading `len` bytes starting there.  On success the
bytes at `addr`, `addr+1`, … are returned. -/
def writeRead (bus : I2CBus) (addr len : Nat) : Except Unit (List Nat) :=
  if bus.fail addr = true then .error ()
  else .ok (List.map (fun i => bus.mem (addr + i) % 256) (List.range len))

/-- `device_driver::RegisterInterface::read_register` (identical in
`cst816s-driver/src/device.rs` and `cst816s-driver/src/lib.rs`): a single
`write_read` bus primitive, plus the log of primitives issued. -/
def read_register (bus : I2CBus) (addr len : Nat) :
    Except Unit (List Nat) × List BusPrim :=
  (writeRead bus addr len, [.writeRead [addr] len])

/-- `RegisterInterface::write_register` from `cst816s-driver/src/device.rs`:
one `transaction` call containing an address write followed by a data
write. -/
def write_register (addr : Nat) (data : List Nat) : List BusPrim :=
  [.transaction [.write [addr], .write data]]

/-- `RegisterInterface::write_register` from `cst816s-driver/src/lib.rs`:
two separate `write` primitive calls, address byte first, then the data. -/
def write_register_minimal (addr : Nat) (data : List Nat) : List BusPrim :=
  [.write [addr], .write data]

/-- Big-endian interpretation of a two-byte register buffer. -/
def be16 (bs : List Nat) : Nat :=
  (bs.getD 0 0 <<< 8) ||| bs.getD 1 0

/-- The `Gesture` enum of the `GestureId` register descriptor. -/
inductive Gesture where
  | noGesture
  | slideUp
  | slideDown
  | slideLeft
  | slideRight
  | singleClick
  | doubleClick
  | longPress
deriving DecidableEq, Repr

/-- `try enum` decoding of the `GestureId` register value: the declared
codes map to their variants, every other byte is rejected. -/
def Gesture.fromByte : Nat → Option Gesture
  | 0x00 => some .noGesture
  | 0x01 => some .slideUp
  | 0x02 => some .slideDown
  | 0x03 => some .slideLeft
  | 0x04 => some .slideRight
  | 0x05 => some .singleClick
  | 0x0B => some .doubleClick
  | 0x0C => some .longPress
  | _ => none

/-- Read of the `Xpos` composite register (device.rs): address 0x03,
16 bits big-endian, field `value` is bits 0..12 of the word. -/
def xposRead (bus : I2CBus) : Except Unit Nat × List BusPrim :=
  let r := read_register bus 0x03 2
  (Except.map (fun bs => be16 bs &&& 0xFFF) r.1, r.2)

/-- Read of the `Ypos` composite register (device.rs): address 0x05,
16 bits big-endian, field `value` is bits 0..12 of the word. -/
def yposRead (bus : I2CBus) : Except Unit Nat × List BusPrim :=
  let r := read_register bus 0x05 2
  (Except.map (fun bs => be16 bs &&& 0xFFF) r.1, r.2)

/-- Read of the `XposH` register (device.rs): address 0x03, one byte,
field `value` is bits 0..4. -/
def xposHRead (bus : I2CBus) : Except Unit Nat × List BusPrim :=
  let r := read_register bus 0x03 1
  (Except.map (fun bs => bs.getD 0 0 &&& 0xF) r.1, r.2)

/-- Read of the `XposL` register (device.rs): address 0x04, one byte,
field `value` is bits 0..8. -/
def xposLRead (bus : I2CBus) : Except Unit Nat × List BusPrim :=
  let r := read_register bus 0x04 1
  (Except.map (fun bs => bs.getD 0 0 &&& 0xFF) r.1, r.2)

/-- Read of the `YposH` register (device.rs): address 0x05, one byte,
field `value` is bits 0..4. -/
def yposHRead (bus : I2CBus) : Except Unit Nat × List BusPrim :=
  let r := read_register bus 0x05 1
  (Except.map (fun bs => bs.getD 0 0 &&& 0xF) r.1, r.2)

/-- Read of the `YposL` register (device.rs): address 0x06, one byte,
field `value` is bits 0..8. -/
def yposLRead (bus : I2CBus) : Except Unit Nat × List BusPrim :=
  let r := read_register bus 0x06 1
  (Except.map (fun bs => bs.getD 0 0 &&& 0xFF) r.1, r.2)

/-- Modelled from the spec: the `BPC0` composite register used by
`driver::CST816S::event` lives in the driver crate device module that is not
part of the source snapshot (only `BPC0H`/`BPC0L` at 0xB0/0xB1 are declared
in device.rs).  Per the spec it is a 16-bit calibration-channel reading at
0xB0–0xB1, read as one two-byte big-endian transfer like `Xpos`. -/
def bpc0Read (bus : I2CBus) : Except Unit Nat × List BusPrim :=
  let r := read_register bus 0xB0 2
  (Except.map (fun bs => be16 bs &&& 0xFFFF) r.1, r.2)

/-- Modelled from the spec: the `BPC1` composite register, a 16-bit
calibration-channel reading at 0xB2–0xB3, read as one two-byte big-endian
transfer (see `bpc0Read`). -/
def bpc1Read (bus : I2CBus) : Except Unit Nat × List BusPrim :=
  let r := read_register bus 0xB2 2
  (Except.map (fun bs => be16 bs &&& 0xFFFF) r.1, r.2)

/-- Read of the raw `GestureId` register byte (address 0x01, one byte,
field `value` is bits 0..8); enum decoding is applied afterwards. -/
def gestureRawRead (bus : I2CBus) : Except Unit Nat × List BusPrim :=
  let r := read_register bus 0x01 1
  (Except.map (fun bs => bs.getD 0 0 &&& 0xFF) r.1, r.2)

/-- Read of the `ChipId` register (address 0xA7, one byte, bits 0..8). -/
def chipIdRead (bus : I2CBus) : Except Unit Nat × List BusPrim :=
  let r := read_register bus 0xA7 1
  (Except.map (fun bs => bs.getD 0 0 &&& 0xFF) r.1, r.2)

/-- `TouchEvent` of the full (driver-crate) variant: point, the two
calibration channels, and the decoded gesture. -/
structure TouchEvent where
  point : Nat × Nat
  bpc0 : Nat
  bpc1 : Nat
  gesture : Gesture
deriving DecidableEq, Repr

/-- Outcome of a call that may panic (an `unwrap` on an error value). -/
inductive EventResult where
  | panic
  | ok (ev : Option TouchEvent)
deriving DecidableEq, Repr

/-- `driver::CST816S::event` (full variant, driver/src/lib.rs 110–135):
return `None` if the interrupt pin is high; otherwise read `Xpos`, `Ypos`,
`BPC0`, `BPC1` and `GestureId`, return `None` if any read returned a bus
error, then unwrap all values — the gesture field getter is itself fallible
(`try enum`), and its `unwrap` panics when the byte decodes to no variant. -/
def event (intIsLow : Bool) (bus : I2CBus) : EventResult × List BusPrim :=
  if intIsLow = false then (.ok none, [])
  else
    let x := xposRead bus
    let y := yposRead bus
    let b0 := bpc0Read bus
    let b1 := bpc1Read bus
    let g := gestureRawRead bus
    let log := x.2 ++ y.2 ++ b0.2 ++ b1.2 ++ g.2
    match x.1, y.1, g.1, b0.1, b1.1 with
    | .ok xv, .ok yv, .ok gb, .ok b0v, .ok b1v =>
      match Gesture.fromByte gb with
      | some gv => (.ok (some ⟨(xv, yv), b0v, b1v, gv⟩), log)
      | none => (.panic, log)
    | _, _, _, _, _ => (.ok none, log)

/-- `TouchEvent` of the minimal (cst816s-driver-crate) variant: point and
gesture only. -/
structure MinTouchEvent where
  point : Nat × Nat
  gesture : Gesture
deriving DecidableEq, Repr

/-- Outcome of the minimal sampling call, which unwraps every read. -/
inductive MinEventResult where
  | panic
  | ok (ev : Option MinTouchEvent)
deriving DecidableEq, Repr

/-- `cst816s_driver::CST816S::event` (minimal variant, lib.rs 408–424):
if the interrupt pin is low, read `XposH`, `XposL`, `YposH`, `YposL` in
order, unwrapping each (a bus error panics and stops the sequence), then
assemble `x = (xh << 2) | xl`, `y = (yh << 2) | yl` and report the gesture
as `SingleClick` without reading the gesture register. -/
def event_minimal (intIsLow : Bool) (bus : I2CBus) :
    MinEventResult × List BusPrim :=
  if intIsLow = false then (.ok none, [])
  else
    let xh := xposHRead bus
    match xh.1 with
    | .error _ => (.panic, xh.2)
    | .ok xhv =>
      let xl := xposLRead bus
      match xl.1 with
      | .error _ => (.panic, xh.2 ++ xl.2)
      | .ok xlv =>
        let yh := yposHRead bus
        match yh.1 with
        | .error _ => (.panic, xh.2 ++ xl.2 ++ yh.2)
        | .ok yhv =>
          let yl := yposLRead bus
          match yl.1 with
          | .error _ => (.panic, xh.2 ++ xl.2 ++ yh.2 ++ yl.2)
          | .ok ylv =>
            (.ok (some ⟨((xhv <<< 2) ||| xlv, (yhv <<< 2) ||| ylv),
                        .singleClick⟩),
             xh.2 ++ xl.2 ++ yh.2 ++ yl.2)

/-- Outcome of `read_chip_id`, which unwraps the register read. -/
inductive ChipIdResult where
  | panic
  | ok (v : Option Nat)
deriving DecidableEq, Repr

/-- `CST816S::read_chip_id` (textually identical in driver/src/lib.rs 86–94
and cst816s-driver/src/lib.rs 398–406): if the interrupt pin is low, read
the `ChipId` register (unwrapping, so a bus error panics) and return the
byte; otherwise return `None` without touching the bus. -/
def read_chip_id (intIsLow : Bool) (bus : I2CBus) :
    ChipIdResult × List BusPrim :=
  if intIsLow = true then
    let r := chipIdRead bus
    match r.1 with
    | .ok v => (.ok (some v), r.2)
    | .error _ => (.panic, r.2)
  else (.ok none, [])

/-- The `PulseWidth` newtype of device.rs: a stored byte. -/
structure PulseWidth where
  value : Nat
deriving DecidableEq, Repr

/-- `From<u8> for PulseWidth` (device.rs 441–447): asserts
`value > 0 && value <= 200` before storing; the failed assertion is
modelled as `none`.  (`PulseWidth::new` checks the same two bounds with
`debug_assert`.) -/
def PulseWidth.fromByte (v : Nat) : Option PulseWidth :=
  if 0 < v ∧ v ≤ 200 then some ⟨v⟩ else none

/-- `From<PulseWidth> for u8` via `Deref` (device.rs 449–461): returns the
stored byte. -/
def PulseWidth.toByte (p : PulseWidth) : Nat := p.value

/-- One step of the reset sequence: a reset-pin edge or a blocking delay
in milliseconds. -/
inductive ResetAction where
  | setLow
  | setHigh
  | delayMs (n : Nat)
deriving DecidableEq, Repr

/-- `cst816s_driver::CST816S::reset` (lib.rs 390–396): pin low, wait 20 ms,
pin high, wait 50 ms. -/
def reset_minimal : List ResetAction :=
  [.setLow, .delayMs 20, .setHigh, .delayMs 50]

/-- `driver::CST816S::reset` (driver/src/lib.rs 47–55): pin high, wait
50 ms, pin low, wait 5 ms, pin high, wait 50 ms. -/
def reset_driver : List ResetAction :=
  [.setHigh, .delayMs 50, .setLow, .delayMs 5, .setHigh, .delayMs 50]

/-- The durations (ms) for which the reset line is held low: scans the
action list, accumulating delays between each `setLow` and the next
`setHigh`. -/
def lowSpans : List ResetAction → Option Nat → List Nat
  | [], some acc => [acc]
  | [], none => []
  | .setLow :: r, _ => lowSpans r (some 0)
  | .setHigh :: r, some acc => acc :: lowSpans r none
  | .setHigh :: r, none => lowSpans r none
  | .delayMs n :: r, some acc => lowSpans r (some (acc + n))
  | .delayMs _ :: r, none => lowSpans r none

/-- The delay accumulated after the final `setHigh`, i.e. how long the line
is held high before the call returns. -/
def finalHighHold : List ResetAction → Nat → Nat
  | [], acc => acc
  | .setHigh :: r, _ => finalHighHold r 0
  | .setLow :: r, _ => finalHighHold r 0
  | .delayMs n :: r, acc => finalHighHold r (acc + n)

/-- A concrete bus holding the spec example bytes 0x01/0x02 at the X
position addresses, with no transport failures. -/
def exampleBus01 : I2CBus :=
  ⟨fun a => if a = 0x03 then 0x01 else if a = 0x04 then 0x02 else 0,
   fun _ => false⟩

/-- A concrete bus whose chip-id register holds 0x23. -/
def chipBus : I2CBus :=
  ⟨fun a => if a = 0xA7 then 0x23 else 0, fun _ => false⟩

/-- A concrete bus on which every required sampling read succeeds and the
gesture byte decodes. -/
def successBus : I2CBus :=
  ⟨fun a =>
    if a = 0x01 then 0x05
    else if a = 0x03 then 0x01 else if a = 0x04 then 0x02
    else if a = 0x05 then 0x02 else if a = 0x06 then 0x30
    else if a = 0xB0 then 0xAA else if a = 0xB1 then 0xBB
    else if a = 0xB2 then 0xCC else if a = 0xB3 then 0xDD
    else 0,
   fun _ => false⟩

/-- A concrete bus on which every read succeeds at the bus level but the
gesture byte 0x06 matches no declared `Gesture` variant. -/
def decodeFailBus : I2CBus :=
  ⟨fun a => if a = 0x01 then 0x06 else 0, fun _ => false⟩

/-- A concrete bus whose X-position read fails with a transport error. -/
def busErrBus : I2CBus := ⟨fun _ => 0, fun a => a == 0x03⟩

/-- A concrete bus with all registers zero and no failures. -/
def zeroBus : I2CBus := ⟨fun _ => 0, fun _ => false⟩

/-! Helper lemmas shared by several claim theorems. -/

theorem range_one : List.range 1 = [0] := by decide

theorem range_two : List.range 2 = [0, 1] := by decide

theorem exmap_ok {α β : Type} (f : α → β) (x : α) :
    Except.map (ε := Unit) f (.ok x) = .ok (f x) := rfl

theorem exmap_err {α β : Type} (f : α → β) :
    Except.map (ε := Unit) f (.error ()) = .error () := rfl

theorem mask_byte (x : Nat) : x % 256 &&& 0xFF = x % 256 := by
  have h := Nat.and_pow_two_sub_one_eq_mod (x % 256) 8
  norm_num at h
  omega

/-- Masking a big-endian 16-bit word to its low 12 bits keeps only the low
nibble of the high byte: the arithmetic core of the composite decode. -/
theorem nibble_mask (b0 b1 : Nat) (h1 : b1 < 256) :
    ((b0 <<< 8) ||| b1) &&& 0xFFF = ((b0 &&& 0xF) <<< 8) ||| b1 := by
  have hb1 : b1 < 2 ^ 8 := by norm_num; omega
  have hor1 : (b0 <<< 8) ||| b1 = 2 ^ 8 * b0 + b1 := by
    rw [Nat.shiftLeft_eq, Nat.mul_comm, Nat.mul_add_lt_is_or hb1]
  have hland : b0 &&& 0xF = b0 % 16 := by
    have h := Nat.and_pow_two_sub_one_eq_mod b0 4
    norm_num at h
    exact h
  have hor2 : ((b0 &&& 0xF) <<< 8) ||| b1 = 2 ^ 8 * (b0 % 16) + b1 := by
    rw [hland, Nat.shiftLeft_eq, Nat.mul_comm, Nat.mul_add_lt_is_or hb1]
  have hmask : (2 ^ 8 * b0 + b1) &&& 0xFFF = (2 ^ 8 * b0 + b1) % 2 ^ 12 := by
    have h := Nat.and_pow_two_sub_one_eq_mod (2 ^ 8 * b0 + b1) 12
    norm_num at h ⊢
    exact h
  rw [hor1, hor2, hmask]
  norm_num
  omega

theorem xposRead_ok {bus : I2CBus} (h : bus.fail 0x03 = false) :
    xposRead bus =
      (.ok (((bus.mem 0x03 % 256) <<< 8 ||| (bus.mem 0x04 % 256)) &&& 0xFFF),
       [.writeRead [0x03] 2]) := by
  simp [xposRead, read_register, writeRead, h, range_two, be16, exmap_ok]

theorem xposRead_err {bus : I2CBus} (h : bus.fail 0x03 = true) :
    xposRead bus = (.error (), [.writeRead [0x03] 2]) := by
  simp [xposRead, read_register, writeRead, h, exmap_err]

theorem yposRead_ok {bus : I2CBus} (h : bus.fail 0x05 = false) :
    yposRead bus =
      (.ok (((bus.mem 0x05 % 256) <<< 8 ||| (bus.mem 0x06 % 256)) &&& 0xFFF),
       [.writeRead [0x05] 2]) := by
  simp [yposRead, read_register, writeRead, h, range_two, be16, exmap_ok]

theorem yposRead_err {bus : I2CBus} (h : bus.fail 0x05 = true) :
    yposRead bus = (.error (), [.writeRead [0x05] 2]) := by
  simp [yposRead, read_register, writeRead, h, exmap_err]

theorem bpc0Read_ok {bus : I2CBus} (h : bus.fail 0xB0 = false) :
    bpc0Read bus =
      (.ok (((bus.mem 0xB0 % 256) <<< 8 ||| (bus.mem 0xB1 % 256)) &&& 0xFFFF),
       [.writeRead [0xB0] 2]) := by
  simp [bpc0Read, read_register, writeRead, h, range_two, be16, exmap_ok]

theorem bpc0Read_err {bus : I2CBus} (h : bus.fail 0xB0 = true) :
    bpc0Read bus = (.error (), [.writeRead [0xB0] 2]) := by
  simp [bpc0Read, read_register, writeRead, h, exmap_err]

theorem bpc1Read_ok {bus : I2CBus} (h : bus.fail 0xB2 = false) :
    bpc1Read bus =
      (.ok (((bus.mem 0xB2 % 256) <<< 8 ||| (bus.mem 0xB3 % 256)) &&& 0xFFFF),
       [.writeRead [0xB2] 2]) := by
  simp [bpc1Read, read_register, writeRead, h, range_two, be16, exmap_ok]

theorem bpc1Read_err {bus : I2CBus} (h : bus.fail 0xB2 = true) :
    bpc1Read bus = (.error (), [.writeRead [0xB2] 2]) := by
  simp [bpc1Read, read_register, writeRead, h, exmap_err]

theorem gestureRawRead_ok {bus : I2CBus} (h : bus.fail 0x01 = false) :
    gestureRawRead bus = (.ok (bus.mem 0x01 % 256), [.writeRead [0x01] 1]) := by
  simp [gestureRawRead, read_register, writeRead, h, range_one, exmap_ok,
        mask_byte]

theorem gestureRawRead_err {bus : I2CBus} (h : bus.fail 0x01 = true) :
    gestureRawRead bus = (.error (), [.writeRead [0x01] 1]) := by
  simp [gestureRawRead, read_register, writeRead, h, exmap_err]

theorem chipIdRead_ok {bus : I2CBus} (h : bus.fail 0xA7 = false) :
    chipIdRead bus = (.ok (bus.mem 0xA7 % 256), [.writeRead [0xA7] 1]) := by
  simp [chipIdRead, read_register, writeRead, h, range_one, exmap_ok,
        mask_byte]

theorem xposHRead_ok {bus : I2CBus} (h : bus.fail 0x03 = false) :
    xposHRead bus =
      (.ok ((bus.mem 0x03 % 256) &&& 0xF), [.writeRead [0x03] 1]) := by
  simp [xposHRead, read_register, writeRead, h, range_one, exmap_ok]

theorem xposHRead_err {bus : I2CBus} (h : bus.fail 0x03 = true) :
    xposHRead bus = (.error (), [.writeRead [0x03] 1]) := by
  simp [xposHRead, read_register, writeRead, h, exmap_err]

theorem xposLRead_ok {bus : I2CBus} (h : bus.fail 0x04 = false) :
    xposLRead bus = (.ok (bus.mem 0x04 % 256), [.writeRead [0x04] 1]) := by
  simp [xposLRead, read_register, writeRead, h, range_one, exmap_ok,
        mask_byte]

theorem xposLRead_err {bus : I2CBus} (h : bus.fail 0x04 = true) :
    xposLRead bus = (.error (), [.writeRead [0x04] 1]) := by
  simp [xposLRead, read_register, writeRead, h, exmap_err]

theorem yposHRead_ok {bus : I2CBus} (h : bus.fail 0x05 = false) :
    yposHRead bus =
      (.ok ((bus.mem 0x05 % 256) &&& 0xF), [.writeRead [0x05] 1]) := by
  simp [yposHRead, read_register, writeRead, h, range_one, exmap_ok]

theorem yposHRead_err {bus : I2CBus} (h : bus.fail 0x05 = true) :
    yposHRead bus = (.error (), [.writeRead [0x05] 1]) := by
  simp [yposHRead, read_register, writeRead, h, exmap_err]

theorem yposLRead_ok {bus : I2CBus} (h : bus.fail 0x06 = false) :
    yposLRead bus = (.ok (bus.mem 0x06 % 256), [.writeRead [0x06] 1]) := by
  simp [yposLRead, read_register, writeRead, h, range_one, exmap_ok,
        mask_byte]

theorem yposLRead_err {bus : I2CBus} (h : bus.fail 0x06 = true) :
    yposLRead bus = (.error (), [.writeRead [0x06] 1]) := by
  simp [yposLRead, read_register, writeRead, h, exmap_err]

/-! Claim theorems. -/

/-- C3: with the interrupt line not asserted (high), `event` — in both the
full and the minimal variant — returns no event and issues zero bus
transactions. -/
theorem event_idle_no_event_no_bus (bus : I2CBus) :
    event false bus = (.ok none, []) ∧
    event_minimal false bus = (.ok none, []) := by
  constructor <;> rfl

set_option maxRecDepth 4000

/-- C5: decoding the gesture-id register maps each declared 8-bit code to
its `Gesture` variant, and rejects (decodes to `none`, never a silent
`noGesture`) every 8-bit code outside the declared set. -/
theorem gesture_decode_exact :
    (Gesture.fromByte 0x00 = some .noGesture ∧
     Gesture.fromByte 0x01 = some .slideUp ∧
     Gesture.fromByte 0x02 = some .slideDown ∧
     Gesture.fromByte 0x03 = some .slideLeft ∧
     Gesture.fromByte 0x04 = some .slideRight ∧
     Gesture.fromByte 0x05 = some .singleClick ∧
     Gesture.fromByte 0x0B = some .doubleClick ∧
     Gesture.fromByte 0x0C = some .longPress) ∧
    ∀ b : Nat, b < 256 →
      b ∉ ([0x00, 0x01, 0x02, 0x03, 0x04, 0x05, 0x0B, 0x0C] : List Nat) →
      Gesture.fromByte b = none := by
  exact ⟨⟨rfl, rfl, rfl, rfl, rfl, rfl, rfl, rfl⟩, by decide⟩

/-- Witness for C5: code 0x06 is outside the declared set and is rejected. -/
theorem gesture_decode_exact_witness : Gesture.fromByte 0x06 = none :=
  gesture_decode_exact.2 0x06 (by decide) (by decide)

/-- C6: `PulseWidth` construction rejects every byte outside [1, 200] before
any bus traffic, and for bytes inside [1, 200] it succeeds and converting
back to a byte returns the original value. -/
theorem pulse_width_validation (v : Nat) (hv : v < 256) :
    (¬(1 ≤ v ∧ v ≤ 200) → PulseWidth.fromByte v = none) ∧
    ((1 ≤ v ∧ v ≤ 200) →
      (PulseWidth.fromByte v).map PulseWidth.toByte = some v) := by
  constructor
  · intro h
    have hg : ¬(0 < v ∧ v ≤ 200) := by omega
    simp [PulseWidth.fromByte, hg]
  · intro h
    have hg : 0 < v ∧ v ≤ 200 := by omega
    simp [PulseWidth.fromByte, hg, PulseWidth.toByte]

/-- Witness for C6: 201 is rejected, 42 round-trips. -/
theorem pulse_width_validation_witness :
    PulseWidth.fromByte 201 = none ∧
    (PulseWidth.fromByte 42).map PulseWidth.toByte = some 42 :=
  ⟨(pulse_width_validation 201 (by decide)).1 (by decide),
   (pulse_width_validation 42 (by decide)).2 (by decide)⟩

/-- C7: every register access puts exactly one transaction on the wire —
a write is an address write followed by a data write (the device.rs
interface groups the pair in a single `transaction` call, the lib.rs
interface issues the same pair), a read is an address write followed by a
data read via one `write_read`; nothing is retried. -/
theorem register_access_single_transaction (bus : I2CBus) (a len : Nat)
    (data : List Nat) :
    opsOfLog (write_register a data) = [.write [a], .write data] ∧
    (write_register a data).length = 1 ∧
    opsOfLog (write_register_minimal a data) = [.write [a], .write data] ∧
    (read_register bus a len).2 = [.writeRead [a] len] ∧
    opsOfLog (read_register bus a len).2 = [.write [a], .read len] :=
  ⟨rfl, rfl, rfl, rfl, rfl⟩

/-- C8: hold times of the two reset sequences.  The cst816s-driver variant
holds the reset line low for 20 ms then high for 50 ms, as the claim
requires; the driver-crate variant holds the line low for only 5 ms
(its own doc comment says 20 ms), violating the ≥ 20 requirement. -/
theorem reset_hold_times :
    lowSpans reset_minimal none = [20] ∧
    finalHighHold reset_minimal 0 = 50 ∧
    lowSpans reset_driver none = [5] ∧
    finalHighHold reset_driver 0 = 50 ∧
    (5 : Nat) < 20 := by
  decide

/-- C4: reading the composite `Xpos` register issues a single two-byte
`write_read` at the high constituent address 0x03 and yields
`(high_nibble << 8) | low_byte`; the spec bytes [0x01, 0x02] decode to
0x0102, and the composite value agrees bit-for-bit with the independent
`XposH`/`XposL` single-byte reads of the same bus bytes. -/
theorem composite_read_assembly (bus : I2CBus)
    (h3 : bus.fail 0x03 = false) (h4 : bus.fail 0x04 = false) :
    (xposRead bus).2 = [.writeRead [0x03] 2] ∧
    (xposRead bus).1 =
      .ok ((((bus.mem 0x03 % 256) &&& 0xF) <<< 8) ||| (bus.mem 0x04 % 256)) ∧
    (xposHRead bus).1 = .ok ((bus.mem 0x03 % 256) &&& 0xF) ∧
    (xposLRead bus).1 = .ok (bus.mem 0x04 % 256) ∧
    (xposRead exampleBus01).1 = .ok 0x0102 ∧
    (xposHRead exampleBus01).1 = .ok 0x01 ∧
    (xposLRead exampleBus01).1 = .ok 0x02 := by
  have hm4 : bus.mem 0x04 % 256 < 256 := Nat.mod_lt _ (by norm_num)
  refine ⟨?_, ?_, ?_, ?_, by decide, by decide, by decide⟩
  · rw [xposRead_ok h3]
  · rw [xposRead_ok h3, nibble_mask _ _ hm4]
  · rw [xposHRead_ok h3]
  · rw [xposLRead_ok h4]

/-- Witness for C4: the spec bytes on a concrete bus. -/
theorem composite_read_assembly_witness :
    (xposRead exampleBus01).1 = .ok 0x0102 :=
  (composite_read_assembly exampleBus01 rfl rfl).2.2.2.2.1

/-- C9: with the interrupt asserted and the chip-id register byte 0x23,
`read_chip_id` returns `Some 0x23` (via one `write_read` at 0xA7); with the
interrupt deasserted it returns `None` with no bus access. -/
theorem read_chip_id_gated (bus : I2CBus) :
    (bus.fail 0xA7 = false → bus.mem 0xA7 % 256 = 0x23 →
      read_chip_id true bus = (.ok (some 0x23), [.writeRead [0xA7] 1])) ∧
    read_chip_id false bus = (.ok none, []) := by
  refine ⟨fun hf hv => ?_, rfl⟩
  simp [read_chip_id, chipIdRead_ok hf, hv]

/-- Witness for C9: the concrete bus with chip id 0x23. -/
theorem read_chip_id_gated_witness :
    read_chip_id true chipBus = (.ok (some 0x23), [.writeRead [0xA7] 1]) :=
  (read_chip_id_gated chipBus).1 rfl (by decide)

/-- Counterexample to C2 as stated: the claim also cites the minimal
(cst816s-driver) `event`, and on the bus holding bytes 0x01/0x02 at the X
addresses — with the interrupt asserted and every required read succeeding —
that variant returns X = (xh << 2) | xl = 6, not the composite-decoded
0x0102, and the hardcoded `SingleClick`, not the decoded gesture byte
(0x00, `NoGesture`). -/
theorem minimal_event_point_gesture_diverge :
    (event_minimal true exampleBus01).1 =
      .ok (some ⟨(6, 0), Gesture.singleClick⟩) ∧
    (xposRead exampleBus01).1 = .ok 0x0102 ∧
    (6 : Nat) ≠ 0x0102 ∧
    Gesture.fromByte (exampleBus01.mem 0x01 % 256) = some Gesture.noGesture ∧
    Gesture.singleClick ≠ Gesture.noGesture := by
  decide

/-- C2 (amended): with the interrupt asserted and every required read
succeeding, the full (driver-crate) `event` returns a `TouchEvent` whose
point is the pair of composite-decoded 12-bit coordinates and whose gesture
is the variant decoded from the gesture-id byte; the minimal
(cst816s-driver) `event` instead assembles the point as
`((xh << 2) | xl, (yh << 2) | yl)` from the four single-byte reads and
reports the hardcoded `SingleClick` gesture. -/
theorem event_success_both_variants (bus : I2CBus) (g : Gesture)
    (h3 : bus.fail 0x03 = false) (h4 : bus.fail 0x04 = false)
    (h5 : bus.fail 0x05 = false) (h6 : bus.fail 0x06 = false)
    (hb0 : bus.fail 0xB0 = false) (hb2 : bus.fail 0xB2 = false)
    (h1 : bus.fail 0x01 = false)
    (hg : Gesture.fromByte (bus.mem 0x01 % 256) = some g) :
    (event true bus).1 = .ok (some
      { point := ((((bus.mem 0x03 % 256) <<< 8) ||| (bus.mem 0x04 % 256)) &&& 0xFFF,
                  (((bus.mem 0x05 % 256) <<< 8) ||| (bus.mem 0x06 % 256)) &&& 0xFFF),
        bpc0 := (((bus.mem 0xB0 % 256) <<< 8) ||| (bus.mem 0xB1 % 256)) &&& 0xFFFF,
        bpc1 := (((bus.mem 0xB2 % 256) <<< 8) ||| (bus.mem 0xB3 % 256)) &&& 0xFFFF,
        gesture := g }) ∧
    (event_minimal true bus).1 = .ok (some
      { point := ((((bus.mem 0x03 % 256) &&& 0xF) <<< 2) ||| (bus.mem 0x04 % 256),
                  (((bus.mem 0x05 % 256) &&& 0xF) <<< 2) ||| (bus.mem 0x06 % 256)),
        gesture := .singleClick }) := by
  constructor
  · simp [event, xposRead_ok h3, yposRead_ok h5, bpc0Read_ok hb0,
          bpc1Read_ok hb2, gestureRawRead_ok h1, hg]
  · simp [event_minimal, xposHRead_ok h3, xposLRead_ok h4,
          yposHRead_ok h5, yposLRead_ok h6]

/-- Witness for C2: the concrete success bus, on which the full variant
returns the composite-decoded point (0x0102, 0x0230) and the minimal
variant returns (6, 56). -/
theorem event_success_both_variants_witness :
    (event true successBus).1 = .ok (some
      ⟨(0x0102, 0x0230), 0xAABB, 0xCCDD, Gesture.singleClick⟩) ∧
    (event_minimal true successBus).1 = .ok (some
      ⟨(6, 56), Gesture.singleClick⟩) := by
  have h := event_success_both_variants successBus Gesture.singleClick
    rfl rfl rfl rfl rfl rfl rfl (by decide)
  exact ⟨h.1.trans (by decide), h.2.trans (by decide)⟩

/-- Counterexample to C1 as stated: with the interrupt asserted and every
bus read succeeding, a gesture byte (0x06) that fails enum decoding makes
`event` panic (the `unwrap` of the fallible gesture field getter), rather
than return no event. -/
theorem event_decode_failure_panics :
    (event true decodeFailBus).1 = .panic ∧
    (event true decodeFailBus).1 ≠ .ok none := by
  decide

/-- C1 (amended): with the interrupt asserted, if any of the five required
register reads fails with a bus/transport error, `event` returns no event —
never a partial `TouchEvent`, never the per-field error.  (A gesture
enum-decode failure is not folded into this rule: it panics, see the
counterexample.) -/
theorem event_bus_error_yields_none (bus : I2CBus)
    (h : bus.fail 0x03 = true ∨ bus.fail 0x05 = true ∨ bus.fail 0xB0 = true ∨
         bus.fail 0xB2 = true ∨ bus.fail 0x01 = true) :
    (event true bus).1 = .ok none := by
  cases h3 : bus.fail 0x03 with
  | true => simp [event, xposRead_err h3]
  | false =>
    cases h5 : bus.fail 0x05 with
    | true => simp [event, xposRead_ok h3, yposRead_err h5]
    | false =>
      cases h1 : bus.fail 0x01 with
      | true =>
        simp [event, xposRead_ok h3, yposRead_ok h5, gestureRawRead_err h1]
      | false =>
        cases hb0 : bus.fail 0xB0 with
        | true =>
          simp [event, xposRead_ok h3, yposRead_ok h5, gestureRawRead_ok h1,
                bpc0Read_err hb0]
        | false =>
          cases hb2 : bus.fail 0xB2 with
          | true =>
            simp [event, xposRead_ok h3, yposRead_ok h5, gestureRawRead_ok h1,
                  bpc0Read_ok hb0, bpc1Read_err hb2]
          | false => simp [h3, h5, hb0, hb2, h1] at h

/-- Witness for C1: a transport error on the X-position read drops the
sample. -/
theorem event_bus_error_yields_none_witness :
    (event true busErrBus).1 = .ok none :=
  event_bus_error_yields_none busErrBus (Or.inl rfl)

/-- C10: in the minimal sampling variant every returned `TouchEvent` has
gesture `SingleClick`, and no bus primitive issued by the call reads the
gesture-id register (address 0x01). -/
theorem minimal_event_gesture_fixed (intIsLow : Bool) (bus : I2CBus) :
    (∀ ev : MinTouchEvent, (event_minimal intIsLow bus).1 = .ok (some ev) →
      ev.gesture = .singleClick) ∧
    (∀ p ∈ (event_minimal intIsLow bus).2, readsAddress p 0x01 = false) := by
  cases intIsLow with
  | false =>
    refine ⟨fun ev hev => ?_, fun p hp => ?_⟩
    · simp [event_minimal] at hev
    · simp [event_minimal] at hp
  | true =>
    cases h3 : bus.fail 0x03 with
    | true =>
      refine ⟨fun ev hev => ?_, fun p hp => ?_⟩
      · simp [event_minimal, xposHRead_err h3] at hev
      · simp [event_minimal, xposHRead_err h3] at hp
        subst hp
        rfl
    | false =>
      cases h4 : bus.fail 0x04 with
      | true =>
        refine ⟨fun ev hev => ?_, fun p hp => ?_⟩
        · simp [event_minimal, xposHRead_ok h3, xposLRead_err h4] at hev
        · simp [event_minimal, xposHRead_ok h3, xposLRead_err h4] at hp
          rcases hp with rfl | rfl <;> rfl
      | false =>
        cases h5 : bus.fail 0x05 with
        | true =>
          refine ⟨fun ev hev => ?_, fun p hp => ?_⟩
          · simp [event_minimal, xposHRead_ok h3, xposLRead_ok h4,
                  yposHRead_err h5] at hev
          · simp [event_minimal, xposHRead_ok h3, xposLRead_ok h4,
                  yposHRead_err h5] at hp
            rcases hp with rfl | rfl | rfl <;> rfl
        | false =>
          cases h6 : bus.fail 0x06 with
          | true =>
            refine ⟨fun ev hev => ?_, fun p hp => ?_⟩
            · simp [event_minimal, xposHRead_ok h3, xposLRead_ok h4,
                    yposHRead_ok h5, yposLRead_err h6] at hev
            · simp [event_minimal, xposHRead_ok h3, xposLRead_ok h4,
                    yposHRead_ok h5, yposLRead_err h6] at hp
              rcases hp with rfl | rfl | rfl | rfl <;> rfl
          | false =>
            refine ⟨fun ev hev => ?_, fun p hp => ?_⟩
            · cases ev
              simp [event_minimal, xposHRead_ok h3, xposLRead_ok h4,
                    yposHRead_ok h5, yposLRead_ok h6] at hev
              simp [hev.2.symm]
            · simp [event_minimal, xposHRead_ok h3, xposLRead_ok h4,
                    yposHRead_ok h5, yposLRead_ok h6] at hp
              rcases hp with rfl | rfl | rfl | rfl <;> rfl

/-- Witness for C10: a concrete successful minimal sample. -/
theorem minimal_event_gesture_fixed_witness :
    (⟨(0, 0), Gesture.singleClick⟩ : MinTouchEvent).gesture =
      Gesture.singleClick ∧
    readsAddress (BusPrim.writeRead [0x03] 1) 0x01 = false :=
  ⟨(minimal_event_gesture_fixed true zeroBus).1 ⟨(0, 0), .singleClick⟩
     (by decide),
   (minimal_event_gesture_fixed true zeroBus).2 (.writeRead [0x03] 1)
     (by decide)⟩

end CST816S
